import Mathlib

/-!
Shallow embedding of the academic-records service (`src/acad-service/main.py`).

Database rows are records, tables are lists of rows, and the per-request
connection of `get_db_connection` is a small state machine tracking the
durable (committed) state, the session (pending) state, and how often the
connection was closed.  SQL queries are modelled relationally (filter /
join / sort), numeric values as rationals, and Python exceptions as
`Except`.  FastAPI's `HTTPException` subclasses `Exception`, so the
blanket `except Exception` handlers of the source catch it; the embedding
reproduces that.
-/

namespace Acad

/-- Row of the `mahasiswa` (student) table. -/
structure Mahasiswa where
  nim : String
  nama : String
  jurusan : String
  angkatan : Int
deriving DecidableEq, Repr

/-- Row of the `mata_kuliah` (course) table. -/
structure MataKuliah where
  kode_mk : String
  nama_mk : String
  sks : Int
deriving DecidableEq, Repr

/-- Row of the `krs` (enrollment) table. -/
structure KRS where
  nim : String
  kode_mk : String
  semester : Int
  nilai : String
deriving DecidableEq, Repr

/-- Row of the `bobot_nilai` (grade-weight) table. -/
structure BobotNilai where
  nilai : String
  bobot : ℚ
deriving DecidableEq, Repr

/-- The relational database state: the four tables of the service. -/
structure DB where
  mahasiswa : List Mahasiswa
  mata_kuliah : List MataKuliah
  krs : List KRS
  bobot_nilai : List BobotNilai
deriving DecidableEq, Repr

instance {ε α : Type _} [DecidableEq ε] [DecidableEq α] : DecidableEq (Except ε α) :=
  fun a b => by
    cases a <;> cases b
    case error.error x y =>
      exact if h : x = y then .isTrue (by rw [h]) else .isFalse (by simpa using h)
    case error.ok x y => exact .isFalse (by simp)
    case ok.error x y => exact .isFalse (by simp)
    case ok.ok x y =>
      exact if h : x = y then .isTrue (by rw [h]) else .isFalse (by simpa using h)

/-- FastAPI `HTTPException`: a status code and a detail message. -/
structure HTTPError where
  status_code : Nat
  detail : String
deriving DecidableEq, Repr

/-- Python exceptions that can propagate inside a handler body.  In the
embedded fragment the only exceptions raised are `HTTPException`s. -/
inductive Exc where
  | http (e : HTTPError)
deriving DecidableEq, Repr

/-- `str(e)` for a FastAPI `HTTPException`: `f"{status_code}: {detail}"`. -/
def excStr : Exc → String
  | .http e => toString e.status_code ++ ": " ++ e.detail

/-- A psycopg2 connection: durable state, session state (uncommitted
changes visible inside the session), and close bookkeeping. -/
structure Conn where
  committed : DB
  pending : DB
  closed : Bool
  closeCount : Nat
deriving DecidableEq, Repr

/-- `psycopg2.connect(**DB_CONFIG)`: a fresh open connection on `db`. -/
def Conn.connect (db : DB) : Conn :=
  { committed := db, pending := db, closed := false, closeCount := 0 }

/-- `conn.commit()`: make the session's pending changes durable. -/
def Conn.commit (c : Conn) : Conn :=
  { c with committed := c.pending }

/-- `conn.rollback()`: discard the session's pending changes. -/
def Conn.rollback (c : Conn) : Conn :=
  { c with pending := c.committed }

/-- `conn.close()`. -/
def Conn.close (c : Conn) : Conn :=
  { c with closed := true, closeCount := c.closeCount + 1 }

/-- The `get_db_connection` context manager: connect, run the body,
commit on normal completion; on any exception roll back and re-raise;
in both cases finally close. -/
def get_db_connection (db : DB) (body : Conn → (Except Exc α) × Conn) :
    (Except Exc α) × Conn :=
  let conn := Conn.connect db
  match body conn with
  | (.ok a, c) => (.ok a, (c.commit).close)
  | (.error e, c) => (.error e, (c.rollback).close)

/-- Truthiness of the optional `authorization` header string:
`None` and the empty string are falsy. -/
def headerTruthy : Option String → Bool
  | none => false
  | some s => !(s == "")

/-- Python's `str.split(" ")` on a character list: split at every single
space, keeping empty fields (`"a  b".split(" ") == ["a", "", "b"]`,
`"".split(" ") == [""]`). -/
def splitSpace : List Char → List Char → List (List Char)
  | [], acc => [acc.reverse]
  | c :: rest, acc =>
    if c = ' ' then acc.reverse :: splitSpace rest []
    else splitSpace rest (c :: acc)

/-- `authorization.split(" ")` as a list of strings. -/
def splitHeader (auth : String) : List String :=
  (splitSpace auth.data []).map (fun cs => { data := cs })

/-- `verify_token`: reject with 401 when the header is absent (falsy);
otherwise take `authorization.split(" ")[1]` and decode it, mapping any
exception (missing second part, bad signature, expiry, ...) to 401.
The JWT decoder is an external collaborator, passed as a function. -/
def verify_token (decode : String → Except Unit P) (authorization : Option String) :
    Except HTTPError P :=
  if headerTruthy authorization then
    match authorization with
    | none => .error { status_code := 401, detail := "Missing Authorization Header" }
    | some auth =>
      match (splitHeader auth)[1]? with
      | none => .error { status_code := 401, detail := "Invalid or Expired Token" }
      | some token =>
        match decode token with
        | .ok p => .ok p
        | .error _ => .error { status_code := 401, detail := "Invalid or Expired Token" }
  else
    .error { status_code := 401, detail := "Missing Authorization Header" }

/-- Lexicographic comparison of character lists by codepoint: the text
collation used for the `ORDER BY` clauses. -/
def charListLeb : List Char → List Char → Bool
  | [], _ => true
  | _ :: _, [] => false
  | a :: as, b :: bs =>
    if a.toNat < b.toNat then true
    else if b.toNat < a.toNat then false
    else charListLeb as bs

/-- Ascending text order on database strings. -/
def strLe (a b : String) : Prop := charListLeb a.data b.data = true

instance : DecidableRel strLe := fun a b =>
  inferInstanceAs (Decidable (charListLeb a.data b.data = true))

theorem charListLeb_total (as bs : List Char) :
    charListLeb as bs = true ∨ charListLeb bs as = true := by
  induction as generalizing bs with
  | nil => exact .inl rfl
  | cons a as ih =>
    cases bs with
    | nil => exact .inr rfl
    | cons b bs =>
      rcases Nat.lt_trichotomy a.toNat b.toNat with h | h | h
      · exact .inl (by simp [charListLeb, h])
      · rcases ih bs with h' | h'
        · exact .inl (by simp [charListLeb, h, h'])
        · exact .inr (by simp [charListLeb, h, h'])
      · exact .inr (by simp [charListLeb, h])

theorem charListLeb_cons (a b : Char) (as bs : List Char) :
    charListLeb (a :: as) (b :: bs) = true ↔
      (a.toNat < b.toNat ∨ (a.toNat = b.toNat ∧ charListLeb as bs = true)) := by
  rcases Nat.lt_trichotomy a.toNat b.toNat with h | h | h
  · simp [charListLeb, h]
  · simp [charListLeb, h]
  · have h1 : ¬ a.toNat < b.toNat := by omega
    have h2 : a.toNat ≠ b.toNat := by omega
    simp [charListLeb, h, h1, h2]

theorem charListLeb_trans (as bs cs : List Char)
    (h1 : charListLeb as bs = true) (h2 : charListLeb bs cs = true) :
    charListLeb as cs = true := by
  induction as generalizing bs cs with
  | nil => rfl
  | cons a as ih =>
    cases bs with
    | nil => simp [charListLeb] at h1
    | cons b bs =>
      cases cs with
      | nil => simp [charListLeb] at h2
      | cons c cs =>
        rw [charListLeb_cons] at h1 h2 ⊢
        rcases h1 with h1 | ⟨e1, r1⟩ <;> rcases h2 with h2 | ⟨e2, r2⟩
        · exact .inl (by omega)
        · exact .inl (by omega)
        · exact .inl (by omega)
        · exact .inr ⟨by omega, ih bs cs r1 r2⟩

theorem strLe_total (a b : String) : strLe a b ∨ strLe b a :=
  charListLeb_total a.data b.data

theorem strLe_trans {a b c : String} (h1 : strLe a b) (h2 : strLe b c) : strLe a c :=
  charListLeb_trans a.data b.data c.data h1 h2

/-- One row of the transcript query of `get_ips_detail`
(`SELECT mk.kode_mk, mk.nama_mk, mk.sks, k.nilai, bn.bobot, k.semester ...`). -/
structure IpsRow where
  kode_mk : String
  nama_mk : String
  sks : Int
  nilai : String
  bobot : ℚ
  semester : Int
deriving DecidableEq, Repr

/-- The transcript query before `ORDER BY`: `krs` rows of the student,
inner-joined to `mata_kuliah` on `kode_mk` and to `bobot_nilai` on `nilai`. -/
def ipsQueryUnsorted (db : DB) (nim : String) : List IpsRow :=
  (db.krs.filter (fun k => k.nim == nim)).flatMap (fun k =>
    (db.mata_kuliah.filter (fun mk => mk.kode_mk == k.kode_mk)).flatMap (fun mk =>
      (db.bobot_nilai.filter (fun bn => bn.nilai == k.nilai)).map (fun bn =>
        { kode_mk := mk.kode_mk, nama_mk := mk.nama_mk, sks := mk.sks,
          nilai := k.nilai, bobot := bn.bobot, semester := k.semester })))

/-- `ORDER BY k.semester ASC, mk.nama_mk ASC`. -/
def ipsRowLe (a b : IpsRow) : Prop :=
  a.semester < b.semester ∨ (a.semester = b.semester ∧ strLe a.nama_mk b.nama_mk)

instance : DecidableRel ipsRowLe := fun a b =>
  inferInstanceAs (Decidable (a.semester < b.semester ∨
    (a.semester = b.semester ∧ strLe a.nama_mk b.nama_mk)))

instance : IsTotal IpsRow ipsRowLe where
  total a b := by
    unfold ipsRowLe
    rcases lt_trichotomy a.semester b.semester with h | h | h
    · exact .inl (.inl h)
    · rcases strLe_total a.nama_mk b.nama_mk with h' | h'
      · exact .inl (.inr ⟨h, h'⟩)
      · exact .inr (.inr ⟨h.symm, h'⟩)
    · exact .inr (.inl h)

instance : IsTrans IpsRow ipsRowLe where
  trans a b c hab hbc := by
    unfold ipsRowLe at *
    rcases hab with h | ⟨h1, h2⟩ <;> rcases hbc with h' | ⟨h1', h2'⟩
    · exact .inl (h.trans h')
    · exact .inl (h1' ▸ h)
    · exact .inl (h1 ▸ h')
    · exact .inr ⟨h1.trans h1', strLe_trans h2 h2'⟩

/-- The transcript query with its `ORDER BY` applied. -/
def ipsQuery (db : DB) (nim : String) : List IpsRow :=
  (ipsQueryUnsorted db nim).insertionSort ipsRowLe

/-- One element of the `transcript` list built by the accumulation loop. -/
structure TranscriptItem where
  kode : String
  mata_kuliah : String
  sks : Int
  nilai : String
  bobot : ℚ
  semester : Int
deriving DecidableEq, Repr

/-- `IpsRow` to the dict appended to `transcript` in the loop body. -/
def IpsRow.toItem (r : IpsRow) : TranscriptItem :=
  { kode := r.kode_mk, mata_kuliah := r.nama_mk, sks := r.sks,
    nilai := r.nilai, bobot := r.bobot, semester := r.semester }

/-- The accumulator of the `for r in rows` loop of `get_ips_detail`. -/
structure LoopState where
  transcript : List TranscriptItem
  total_sks : Int
  total_points : ℚ
deriving DecidableEq, Repr

/-- One iteration of the loop: add `sks` to `total_sks`, `sks * bobot` to
`total_points`, and append the line item. -/
def processRow (s : LoopState) (r : IpsRow) : LoopState :=
  { transcript := s.transcript ++ [r.toItem],
    total_sks := s.total_sks + r.sks,
    total_points := s.total_points + r.sks * r.bobot }

/-- The whole loop, from the initial accumulator. -/
def processRows (rows : List IpsRow) : LoopState :=
  rows.foldl processRow { transcript := [], total_sks := 0, total_points := 0 }

/-- Python's `round(q, 2)`, on exact rationals. -/
def round2 (q : ℚ) : ℚ := (round (q * 100) : ℤ) / 100

/-- `ips = round(total_points / total_sks, 2) if total_sks > 0 else 0.0`. -/
def computeIps (total_points : ℚ) (total_sks : Int) : ℚ :=
  if total_sks > 0 then round2 (total_points / (total_sks : ℚ)) else 0

/-- The JSON object returned by `get_ips_detail` on success. -/
structure IpsResult where
  nim : String
  nama : String
  prodi : String
  angkatan : Int
  total_sks : Int
  ips : ℚ
  transcript : List TranscriptItem
deriving DecidableEq, Repr

/-- `SELECT ... FROM mahasiswa WHERE nim = %s` followed by `fetchone()`. -/
def findStudent (db : DB) (nim : String) : Option Mahasiswa :=
  (db.mahasiswa.filter (fun m => m.nim == nim)).head?

/-- The body of `get_ips_detail` inside the `with get_db_connection()`
block: look the student up (404 if absent), run the transcript query,
fold the accumulation loop and assemble the response. -/
def get_ips_detail_body (nim : String) (c : Conn) : (Except Exc IpsResult) × Conn :=
  match findStudent c.pending nim with
  | none => (.error (.http { status_code := 404, detail := "Mahasiswa tidak ditemukan" }), c)
  | some student =>
    let rows := ipsQuery c.pending nim
    let st := processRows rows
    let ips := computeIps st.total_points st.total_sks
    (.ok { nim := student.nim, nama := student.nama, prodi := student.jurusan,
           angkatan := student.angkatan, total_sks := st.total_sks, ips := ips,
           transcript := st.transcript }, c)

/-- Wrap a handler body in the source's `try ... except Exception as e:
raise HTTPException(status_code=500, detail=str(e))`.  FastAPI's
`HTTPException` derives from `Exception`, so an `HTTPException` raised
inside the `try` block is caught here too and re-raised as a 500. -/
def wrap500 (db : DB) (body : Conn → (Except Exc α) × Conn) :
    (Except HTTPError α) × DB :=
  match get_db_connection db body with
  | (.ok a, c) => (.ok a, c.committed)
  | (.error e, c) => (.error { status_code := 500, detail := excStr e }, c.committed)

/-- Handler of `GET /api/acad/ips/{nim}` (after token verification).
Returns the response and the durable database state afterwards. -/
def get_ips_detail (db : DB) (nim : String) : (Except HTTPError IpsResult) × DB :=
  wrap500 db (get_ips_detail_body nim)

/-- Request body of `POST /api/acad/krs`. -/
structure KRSInput where
  nim : String
  kode_mk : String
  semester : Int
  nilai : String
deriving DecidableEq, Repr

/-- Body of `add_krs`: check the grade exists in `bobot_nilai`
(400 if not), then insert the enrollment row. -/
def add_krs_body (data : KRSInput) (c : Conn) : (Except Exc String) × Conn :=
  match ((c.pending.bobot_nilai.filter (fun bn => bn.nilai == data.nilai)).head?) with
  | none => (.error (.http { status_code := 400, detail := "Nilai tidak valid" }), c)
  | some _ =>
    (.ok "Data KRS berhasil ditambahkan",
     { c with pending :=
        { c.pending with krs := c.pending.krs ++
            [{ nim := data.nim, kode_mk := data.kode_mk,
               semester := data.semester, nilai := data.nilai }] } })

/-- Handler of `POST /api/acad/krs` (after token verification). -/
def add_krs (db : DB) (data : KRSInput) : (Except HTTPError String) × DB :=
  wrap500 db (add_krs_body data)

/-- Request body of `POST /api/acad/mahasiswa`. -/
structure MahasiswaInput where
  nim : String
  nama : String
  jurusan : String
  angkatan : Int
deriving DecidableEq, Repr

/-- Body of `add_mahasiswa`: insert the student row. -/
def add_mahasiswa_body (data : MahasiswaInput) (c : Conn) : (Except Exc String) × Conn :=
  (.ok "Mahasiswa berhasil ditambahkan",
   { c with pending :=
      { c.pending with mahasiswa := c.pending.mahasiswa ++
          [{ nim := data.nim, nama := data.nama,
             jurusan := data.jurusan, angkatan := data.angkatan }] } })

/-- Handler of `POST /api/acad/mahasiswa` (after token verification). -/
def add_mahasiswa (db : DB) (data : MahasiswaInput) : (Except HTTPError String) × DB :=
  wrap500 db (add_mahasiswa_body data)

/-- Request body of `POST /api/acad/matakuliah`. -/
structure MataKuliahInput where
  kode_mk : String
  nama_mk : String
  sks : Int
deriving DecidableEq, Repr

/-- Body of `add_matakuliah`: insert the course row. -/
def add_matakuliah_body (data : MataKuliahInput) (c : Conn) : (Except Exc String) × Conn :=
  (.ok "Mata Kuliah berhasil ditambahkan",
   { c with pending :=
      { c.pending with mata_kuliah := c.pending.mata_kuliah ++
          [{ kode_mk := data.kode_mk, nama_mk := data.nama_mk, sks := data.sks }] } })

/-- Handler of `POST /api/acad/matakuliah` (after token verification). -/
def add_matakuliah (db : DB) (data : MataKuliahInput) : (Except HTTPError String) × DB :=
  wrap500 db (add_matakuliah_body data)

/-- `ORDER BY nim` for the student listing. -/
def mahasiswaLe (a b : Mahasiswa) : Prop := strLe a.nim b.nim

instance : DecidableRel mahasiswaLe := fun a b =>
  inferInstanceAs (Decidable (strLe a.nim b.nim))

instance : IsTotal Mahasiswa mahasiswaLe where
  total a b := strLe_total a.nim b.nim

instance : IsTrans Mahasiswa mahasiswaLe where
  trans _ _ _ hab hbc := strLe_trans hab hbc

/-- `ORDER BY kode_mk` for the course listing. -/
def mataKuliahLe (a b : MataKuliah) : Prop := strLe a.kode_mk b.kode_mk

instance : DecidableRel mataKuliahLe := fun a b =>
  inferInstanceAs (Decidable (strLe a.kode_mk b.kode_mk))

instance : IsTotal MataKuliah mataKuliahLe where
  total a b := strLe_total a.kode_mk b.kode_mk

instance : IsTrans MataKuliah mataKuliahLe where
  trans _ _ _ hab hbc := strLe_trans hab hbc

/-- Body of `get_all_mahasiswa`: `SELECT ... FROM mahasiswa ORDER BY nim`. -/
def get_all_mahasiswa_body (c : Conn) : (Except Exc (List Mahasiswa)) × Conn :=
  (.ok (c.pending.mahasiswa.insertionSort mahasiswaLe), c)

/-- Handler of `GET /api/acad/mahasiswa` (after token verification). -/
def get_all_mahasiswa (db : DB) : (Except HTTPError (List Mahasiswa)) × DB :=
  wrap500 db get_all_mahasiswa_body

/-- Body of `get_all_matakuliah`: `SELECT ... FROM mata_kuliah ORDER BY kode_mk`. -/
def get_all_matakuliah_body (c : Conn) : (Except Exc (List MataKuliah)) × Conn :=
  (.ok (c.pending.mata_kuliah.insertionSort mataKuliahLe), c)

/-- Handler of `GET /api/acad/matakuliah` (after token verification). -/
def get_all_matakuliah (db : DB) : (Except HTTPError (List MataKuliah)) × DB :=
  wrap500 db get_all_matakuliah_body

/-- FastAPI's `Depends(verify_token)` on a protected route: the dependency
runs first; when it raises, the handler body never runs, no connection is
opened, and the error is returned.  The `Nat` in the result counts the
database connections opened while serving the request. -/
def protectedRoute (decode : String → Except Unit P) (authorization : Option String)
    (db : DB) (handler : P → DB → (Except HTTPError A) × DB × Nat) :
    (Except HTTPError A) × DB × Nat :=
  match verify_token decode authorization with
  | .error e => (.error e, db, 0)
  | .ok p => handler p db

/-- Route `GET /api/acad/ips/{nim}`: each handler body opens one connection. -/
def ips_route (decode : String → Except Unit P) (authorization : Option String)
    (nim : String) (db : DB) : (Except HTTPError IpsResult) × DB × Nat :=
  protectedRoute decode authorization db (fun _ db =>
    ((get_ips_detail db nim).1, (get_ips_detail db nim).2, 1))

/-- Route `POST /api/acad/krs`. -/
def krs_route (decode : String → Except Unit P) (authorization : Option String)
    (data : KRSInput) (db : DB) : (Except HTTPError String) × DB × Nat :=
  protectedRoute decode authorization db (fun _ db =>
    ((add_krs db data).1, (add_krs db data).2, 1))

/-- Route `POST /api/acad/mahasiswa`. -/
def mahasiswa_post_route (decode : String → Except Unit P) (authorization : Option String)
    (data : MahasiswaInput) (db : DB) : (Except HTTPError String) × DB × Nat :=
  protectedRoute decode authorization db (fun _ db =>
    ((add_mahasiswa db data).1, (add_mahasiswa db data).2, 1))

/-- Route `POST /api/acad/matakuliah`. -/
def matakuliah_post_route (decode : String → Except Unit P) (authorization : Option String)
    (data : MataKuliahInput) (db : DB) : (Except HTTPError String) × DB × Nat :=
  protectedRoute decode authorization db (fun _ db =>
    ((add_matakuliah db data).1, (add_matakuliah db data).2, 1))

/-- Route `GET /api/acad/mahasiswa`. -/
def mahasiswa_list_route (decode : String → Except Unit P) (authorization : Option String)
    (db : DB) : (Except HTTPError (List Mahasiswa)) × DB × Nat :=
  protectedRoute decode authorization db (fun _ db =>
    ((get_all_mahasiswa db).1, (get_all_mahasiswa db).2, 1))

/-- Route `GET /api/acad/matakuliah`. -/
def matakuliah_list_route (decode : String → Except Unit P) (authorization : Option String)
    (db : DB) : (Except HTTPError (List MataKuliah)) × DB × Nat :=
  protectedRoute decode authorization db (fun _ db =>
    ((get_all_matakuliah db).1, (get_all_matakuliah db).2, 1))

/-- Spec-side formula: the total credits of a row set, `sum(credit_i)`. -/
def sumSks (rows : List IpsRow) : Int :=
  (rows.map (fun r => r.sks)).sum

/-- Spec-side formula: the total points of a row set, `sum(credit_i * weight_i)`. -/
def sumPoints (rows : List IpsRow) : ℚ :=
  (rows.map (fun r => (r.sks : ℚ) * r.bobot)).sum

/-- Transcript ordering induced on line items: semester ascending, then
course name ascending. -/
def itemLe (a b : TranscriptItem) : Prop :=
  a.semester < b.semester ∨ (a.semester = b.semester ∧ strLe a.mata_kuliah b.mata_kuliah)

/-! ### Helper lemmas -/

theorem foldl_processRow (rows : List IpsRow) (s : LoopState) :
    rows.foldl processRow s =
      { transcript := s.transcript ++ rows.map IpsRow.toItem,
        total_sks := s.total_sks + sumSks rows,
        total_points := s.total_points + sumPoints rows } := by
  induction rows generalizing s with
  | nil => simp [sumSks, sumPoints]
  | cons r rows ih =>
    simp only [List.foldl_cons, ih, processRow, List.map_cons, sumSks, sumPoints,
      List.sum_cons, LoopState.mk.injEq]
    refine ⟨by simp, by ring, by ring⟩

theorem processRows_eq (rows : List IpsRow) :
    processRows rows =
      { transcript := rows.map IpsRow.toItem,
        total_sks := sumSks rows,
        total_points := sumPoints rows } := by
  simpa using foldl_processRow rows { transcript := [], total_sks := 0, total_points := 0 }

theorem round_mono_rat {x y : ℚ} (h : x ≤ y) : round x ≤ round y := by
  rw [round_eq, round_eq]
  exact Int.floor_mono (by linarith)

theorem round2_mono {x y : ℚ} (h : x ≤ y) : round2 x ≤ round2 y := by
  unfold round2
  have h1 : round (x * 100) ≤ round (y * 100) := round_mono_rat (by linarith)
  have h2 : ((round (x * 100) : ℤ) : ℚ) ≤ ((round (y * 100) : ℤ) : ℚ) := by
    exact_mod_cast h1
  linarith

theorem round2_intdiv (k : ℤ) : round2 ((k : ℚ) / 100) = (k : ℚ) / 100 := by
  unfold round2
  have : ((k : ℚ) / 100) * 100 = (k : ℚ) := by field_simp
  rw [this, round_intCast]

theorem round2_zero : round2 0 = 0 := by
  unfold round2
  norm_num

/-! ### Test fixtures -/

/-- The empty database. -/
def emptyDB : DB := { mahasiswa := [], mata_kuliah := [], krs := [], bobot_nilai := [] }

/-- A database with one student, two courses, two enrollments and two
grade weights; the end-to-end scenario of the specification. -/
def sampleDB : DB :=
  { mahasiswa := [{ nim := "S1", nama := "Alice", jurusan := "CS", angkatan := 2020 }],
    mata_kuliah := [{ kode_mk := "C1", nama_mk := "Algebra", sks := 3 },
                    { kode_mk := "C2", nama_mk := "Biology", sks := 2 }],
    krs := [{ nim := "S1", kode_mk := "C1", semester := 1, nilai := "A" },
            { nim := "S1", kode_mk := "C2", semester := 1, nilai := "B" }],
    bobot_nilai := [{ nilai := "A", bobot := 4 }, { nilai := "B", bobot := 3 }] }

/-- The joined rows of the end-to-end scenario: sks 3 with weight 4.0 and
sks 2 with weight 3.0. -/
def sampleRows : List IpsRow :=
  [{ kode_mk := "C1", nama_mk := "Algebra", sks := 3, nilai := "A", bobot := 4, semester := 1 },
   { kode_mk := "C2", nama_mk := "Biology", sks := 2, nilai := "B", bobot := 3, semester := 1 }]

/-- A database with one student and no enrollments. -/
def lonelyDB : DB :=
  { mahasiswa := [{ nim := "S2", nama := "Bob", jurusan := "EE", angkatan := 2021 }],
    mata_kuliah := [], krs := [], bobot_nilai := [] }

/-! ### Claims -/

/-- Claim C1: the specification says a transcript request for a nonexistent
student identifier returns a distinguishable 404, never a 500.  The code
raises `HTTPException(404)` inside `try ... except Exception`, which
catches it (FastAPI's `HTTPException` derives from `Exception`) and
re-raises `HTTPException(500, str(e))`: on the empty database the request
for "S1" produces a 500 whose detail merely quotes the swallowed 404. -/
theorem c1_missing_student_returns_500 :
    get_ips_detail emptyDB "S1"
      = (.error { status_code := 500, detail := "404: Mahasiswa tidak ditemukan" },
         emptyDB) := rfl

/-- Claim C2: the specification says an enrollment insert with a grade
absent from `bobot_nilai` returns a validation error 400 (distinct from
500) and performs no write.  The no-write half holds (the database is
returned unchanged), but the `HTTPException(400)` is caught by the
handler's blanket `except Exception` and re-raised as a 500: inserting
grade "Z" against `sampleDB` yields status 500, not 400. -/
theorem c2_invalid_grade_returns_500_no_write :
    add_krs sampleDB { nim := "S1", kode_mk := "C1", semester := 1, nilai := "Z" }
      = (.error { status_code := 500, detail := "400: Nilai tidak valid" },
         sampleDB) := rfl

/-- Claim C6: a request to any protected `/api/acad/*` route without an
`Authorization` header is rejected with 401 by the `verify_token`
dependency before the handler body runs: the database is unchanged and no
connection is opened (the connection counter of the route is 0). -/
theorem c6_missing_header_401 (P A : Type) (decode : String → Except Unit P)
    (db : DB) (handler : P → DB → (Except HTTPError A) × DB × Nat) (nim : String)
    (kdata : KRSInput) (mdata : MahasiswaInput) (cdata : MataKuliahInput) :
    protectedRoute decode none db handler
      = (.error { status_code := 401, detail := "Missing Authorization Header" }, db, 0) ∧
    ips_route decode none nim db
      = (.error { status_code := 401, detail := "Missing Authorization Header" }, db, 0) ∧
    krs_route decode none kdata db
      = (.error { status_code := 401, detail := "Missing Authorization Header" }, db, 0) ∧
    mahasiswa_post_route decode none mdata db
      = (.error { status_code := 401, detail := "Missing Authorization Header" }, db, 0) ∧
    matakuliah_post_route decode none cdata db
      = (.error { status_code := 401, detail := "Missing Authorization Header" }, db, 0) ∧
    mahasiswa_list_route decode none db
      = (.error { status_code := 401, detail := "Missing Authorization Header" }, db, 0) ∧
    matakuliah_list_route decode none db
      = (.error { status_code := 401, detail := "Missing Authorization Header" }, db, 0) :=
  ⟨rfl, rfl, rfl, rfl, rfl, rfl, rfl⟩

/-- Claim C10: whenever `verify_token` rejects a request — header absent,
header without a space-separated second part, or a token the decoder
refuses — the resulting error has status 401, never 500: every exception
raised while splitting the header or decoding the token is caught and
mapped to 401. -/
theorem c10_malformed_auth_401 (P : Type) (decode : String → Except Unit P)
    (authorization : Option String) (e : HTTPError)
    (h : verify_token decode authorization = .error e) :
    e.status_code = 401 := by
  rcases authorization with _ | auth
  · simp only [verify_token, headerTruthy, Bool.false_eq_true, if_false,
      Except.error.injEq] at h
    subst h; rfl
  · simp only [verify_token] at h
    by_cases ht : headerTruthy (some auth) = true
    · rw [if_pos ht] at h
      rcases hsp : (splitHeader auth)[1]? with _ | tok <;> rw [hsp] at h <;>
        dsimp only at h
      · rw [Except.error.injEq] at h; subst h; rfl
      · rcases hd : decode tok with u | p <;> rw [hd] at h <;> dsimp only at h
        · rw [Except.error.injEq] at h; subst h; rfl
        · exact absurd h (by simp)
    · rw [if_neg ht] at h
      rw [Except.error.injEq] at h; subst h; rfl

/-- Witness for C10: a header with no second space-separated part is
rejected with a 401 error. -/
theorem c10_malformed_auth_401_witness :
    verify_token (fun _ : String => (Except.error () : Except Unit Unit)) (some "tok")
      = .error { status_code := 401, detail := "Invalid or Expired Token" } ∧
    ({ status_code := 401, detail := "Invalid or Expired Token" } : HTTPError).status_code
      = 401 :=
  ⟨by decide, c10_malformed_auth_401 Unit (fun _ => .error ()) (some "tok") _ (by decide)⟩

/-- Claim C7: for every request run through `get_db_connection` whose body
neither closes nor commits the connection itself (true of every handler in
the source), the connection is committed on normal completion, rolled back
on any exception (the durable state falls back to the initial `db`), and
closed exactly once on both exit paths. -/
theorem c7_connection_lifecycle {α : Type} (db : DB) (body : Conn → (Except Exc α) × Conn)
    (hclose : ((body (Conn.connect db)).2).closeCount = 0)
    (hcommit : ((body (Conn.connect db)).2).committed = db) :
    ((get_db_connection db body).2).closed = true ∧
    ((get_db_connection db body).2).closeCount = 1 ∧
    (get_db_connection db body).1 = (body (Conn.connect db)).1 ∧
    ((get_db_connection db body).2).committed =
      (match (body (Conn.connect db)).1 with
       | .ok _ => ((body (Conn.connect db)).2).pending
       | .error _ => db) ∧
    ((get_db_connection db body).2).pending =
      (match (body (Conn.connect db)).1 with
       | .ok _ => ((body (Conn.connect db)).2).pending
       | .error _ => db) := by
  rcases hb : body (Conn.connect db) with ⟨r, c⟩
  rw [hb] at hclose hcommit
  dsimp only at hclose hcommit
  rcases r with e | a <;>
    simp [get_db_connection, hb, Conn.commit, Conn.rollback, Conn.close, hclose, hcommit]

/-- Witness for C7: the transcript handler body on the empty database
raises (student not found); the connection is rolled back to the initial
state and closed exactly once. -/
theorem c7_connection_lifecycle_witness :
    ((get_db_connection emptyDB (get_ips_detail_body "S1")).2).closed = true ∧
    ((get_db_connection emptyDB (get_ips_detail_body "S1")).2).closeCount = 1 ∧
    (get_db_connection emptyDB (get_ips_detail_body "S1")).1
      = (get_ips_detail_body "S1" (Conn.connect emptyDB)).1 ∧
    ((get_db_connection emptyDB (get_ips_detail_body "S1")).2).committed =
      (match (get_ips_detail_body "S1" (Conn.connect emptyDB)).1 with
       | .ok _ => ((get_ips_detail_body "S1" (Conn.connect emptyDB)).2).pending
       | .error _ => emptyDB) ∧
    ((get_db_connection emptyDB (get_ips_detail_body "S1")).2).pending =
      (match (get_ips_detail_body "S1" (Conn.connect emptyDB)).1 with
       | .ok _ => ((get_ips_detail_body "S1" (Conn.connect emptyDB)).2).pending
       | .error _ => emptyDB) :=
  c7_connection_lifecycle emptyDB (get_ips_detail_body "S1") rfl rfl

/-- Claim C3: the accumulation loop of `get_ips_detail` computes exactly the
specification's weighted average: when the accumulated credits are positive,
`total_sks` is the sum of the rows' credit weights and the GPA is
`round(sum(credit_i * weight_i) / sum(credit_i), 2)`. -/
theorem c3_gpa_formula (rows : List IpsRow)
    (h : 0 < (processRows rows).total_sks) :
    (processRows rows).total_sks = sumSks rows ∧
    computeIps (processRows rows).total_points (processRows rows).total_sks
      = round2 (sumPoints rows / (sumSks rows : ℚ)) := by
  have he := processRows_eq rows
  rw [he] at h
  dsimp only at h
  rw [he]
  dsimp only
  exact ⟨rfl, by simp only [computeIps, if_pos h]⟩

/-- Witness for C3: on the scenario rows {sks 3, weight 4.0} and
{sks 2, weight 3.0} the loop yields total credits 5 and GPA 18/5 = 3.60,
and both agree with the specification formula. -/
theorem c3_gpa_formula_witness :
    0 < (processRows sampleRows).total_sks ∧
    (processRows sampleRows).total_sks = 5 ∧
    computeIps (processRows sampleRows).total_points (processRows sampleRows).total_sks
      = 18 / 5 ∧
    ((processRows sampleRows).total_sks = sumSks sampleRows ∧
     computeIps (processRows sampleRows).total_points (processRows sampleRows).total_sks
       = round2 (sumPoints sampleRows / (sumSks sampleRows : ℚ))) := by
  refine ⟨by decide, by decide, ?_, c3_gpa_formula sampleRows (by decide)⟩
  norm_num [sampleRows, processRows, processRow, computeIps, round2, round_eq,
    List.foldl, IpsRow.toItem]

/-- Claim C4: for an existing student with zero enrollment rows the
transcript endpoint succeeds with `total_sks = 0` and `ips = 0.0`, the
database is untouched, and the guarded division is never taken:
`computeIps` returns 0 whenever `total_sks = 0`, for any `total_points`. -/
theorem c4_zero_rows (db : DB) (nim : String) (m : Mahasiswa) (p : ℚ)
    (hm : findStudent db nim = some m) (hq : ipsQuery db nim = []) :
    get_ips_detail db nim
      = (.ok { nim := m.nim, nama := m.nama, prodi := m.jurusan, angkatan := m.angkatan,
               total_sks := 0, ips := 0, transcript := [] }, db) ∧
    computeIps p 0 = 0 := by
  constructor
  · have hpend : (Conn.connect db).pending = db := rfl
    simp only [get_ips_detail, wrap500, get_db_connection, get_ips_detail_body,
      hpend, hm, hq]
    simp [processRows, computeIps, Conn.commit, Conn.close, Conn.connect]
  · simp [computeIps]

/-- Witness for C4: the student "S2" of `lonelyDB` has no enrollments; the
transcript succeeds with zero credits and GPA 0. -/
theorem c4_zero_rows_witness :
    get_ips_detail lonelyDB "S2"
      = (.ok { nim := "S2", nama := "Bob", prodi := "EE", angkatan := 2021,
               total_sks := 0, ips := 0, transcript := [] }, lonelyDB) ∧
    computeIps 7 0 = 0 :=
  c4_zero_rows lonelyDB "S2"
    { nim := "S2", nama := "Bob", jurusan := "EE", angkatan := 2021 } 7 rfl rfl

theorem get_ips_detail_eq (db : DB) (nim : String) :
    get_ips_detail db nim =
      match findStudent db nim with
      | none => (.error { status_code := 500, detail := "404: Mahasiswa tidak ditemukan" }, db)
      | some m =>
        (.ok { nim := m.nim, nama := m.nama, prodi := m.jurusan, angkatan := m.angkatan,
               total_sks := (processRows (ipsQuery db nim)).total_sks,
               ips := computeIps (processRows (ipsQuery db nim)).total_points
                        (processRows (ipsQuery db nim)).total_sks,
               transcript := (processRows (ipsQuery db nim)).transcript }, db) := by
  rcases hfs : findStudent db nim with _ | m <;>
    · unfold get_ips_detail wrap500 get_db_connection get_ips_detail_body
      simp only [Conn.connect]
      rw [hfs]
      rfl

/-- Claim C5: the student listing is sorted ascending by `nim`, the course
listing ascending by `kode_mk`, and a successful transcript's line items
ascending by semester, with ties broken by course name ascending. -/
theorem c5_ordering (db : DB) (nim : String) :
    (∀ l, (get_all_mahasiswa db).1 = .ok l → l.Sorted mahasiswaLe) ∧
    (∀ l, (get_all_matakuliah db).1 = .ok l → l.Sorted mataKuliahLe) ∧
    (∀ r, (get_ips_detail db nim).1 = .ok r → r.transcript.Sorted itemLe) := by
  refine ⟨?_, ?_, ?_⟩
  · intro l hl
    have he : (get_all_mahasiswa db).1 = .ok (db.mahasiswa.insertionSort mahasiswaLe) := rfl
    rw [he, Except.ok.injEq] at hl
    subst hl
    exact List.sorted_insertionSort mahasiswaLe db.mahasiswa
  · intro l hl
    have he : (get_all_matakuliah db).1
        = .ok (db.mata_kuliah.insertionSort mataKuliahLe) := rfl
    rw [he, Except.ok.injEq] at hl
    subst hl
    exact List.sorted_insertionSort mataKuliahLe db.mata_kuliah
  · intro r hr
    rw [get_ips_detail_eq] at hr
    rcases hfs : findStudent db nim with _ | m <;> rw [hfs] at hr <;> dsimp only at hr
    · exact absurd hr (by simp)
    · rw [Except.ok.injEq] at hr
      subst hr
      dsimp only
      rw [processRows_eq]
      dsimp only
      have hs := List.sorted_insertionSort ipsRowLe (ipsQueryUnsorted db nim)
      exact hs.map IpsRow.toItem (fun a b hab => hab)

/-- Witness for C5: the listings and the transcript of `sampleDB` come back
in ascending order. -/
theorem c5_ordering_witness :
    List.Sorted mahasiswaLe
      [{ nim := "S1", nama := "Alice", jurusan := "CS", angkatan := 2020 }] ∧
    List.Sorted mataKuliahLe
      [{ kode_mk := "C1", nama_mk := "Algebra", sks := 3 },
       { kode_mk := "C2", nama_mk := "Biology", sks := 2 }] ∧
    List.Sorted itemLe
      [{ kode := "C1", mata_kuliah := "Algebra", sks := 3,
         nilai := "A", bobot := 4, semester := 1 },
       { kode := "C2", mata_kuliah := "Biology", sks := 2,
         nilai := "B", bobot := 3, semester := 1 }] := by
  refine ⟨(c5_ordering sampleDB "S1").1 _ (by decide),
          (c5_ordering sampleDB "S1").2.1 _ (by decide), ?_⟩
  exact (c5_ordering sampleDB "S1").2.2
    { nim := "S1", nama := "Alice", prodi := "CS", angkatan := 2020,
      total_sks := 5, ips := 18 / 5,
      transcript :=
        [{ kode := "C1", mata_kuliah := "Algebra", sks := 3,
           nilai := "A", bobot := 4, semester := 1 },
         { kode := "C2", mata_kuliah := "Biology", sks := 2,
           nilai := "B", bobot := 3, semester := 1 }] }
    (by norm_num [get_ips_detail, wrap500, get_db_connection, get_ips_detail_body,
      findStudent, Conn.connect, ipsQuery, ipsQueryUnsorted, processRows, processRow,
      computeIps, round2, round_eq, List.insertionSort, List.orderedInsert,
      List.filter, List.flatMap, List.foldl, IpsRow.toItem, strLe, charListLeb,
      sampleDB])

/-- Claim C9: the transcript handler performs no writes — its final durable
database state equals the initial one — and it is deterministic: two
database states that agree on the student lookup and on the joined
enrollment rows for `nim` produce identical responses. -/
theorem c9_read_only_deterministic (db db' : DB) (nim : String)
    (h1 : findStudent db nim = findStudent db' nim)
    (h2 : ipsQuery db nim = ipsQuery db' nim) :
    (get_ips_detail db nim).2 = db ∧
    (get_ips_detail db nim).1 = (get_ips_detail db' nim).1 := by
  constructor
  · rw [get_ips_detail_eq]
    rcases findStudent db nim with _ | m <;> rfl
  · rw [get_ips_detail_eq, get_ips_detail_eq, h1, h2]
    rcases findStudent db' nim with _ | m <;> rfl

/-- `sampleDB` extended with an unrelated student and an unrelated
enrollment: the rows relevant to "S1" are unchanged. -/
def sampleDBPlus : DB :=
  { mahasiswa := sampleDB.mahasiswa
      ++ [{ nim := "S9", nama := "Eve", jurusan := "ME", angkatan := 2019 }],
    mata_kuliah := sampleDB.mata_kuliah,
    krs := sampleDB.krs ++ [{ nim := "S9", kode_mk := "C1", semester := 2, nilai := "A" }],
    bobot_nilai := sampleDB.bobot_nilai }

/-- Witness for C9: adding an unrelated student and enrollment changes
nothing in the transcript of "S1", and the database comes back unmodified. -/
theorem c9_read_only_deterministic_witness :
    (get_ips_detail sampleDB "S1").2 = sampleDB ∧
    (get_ips_detail sampleDB "S1").1 = (get_ips_detail sampleDBPlus "S1").1 :=
  c9_read_only_deterministic sampleDB sampleDBPlus "S1" (by decide) (by decide)

theorem sumSks_cast (rows : List IpsRow) :
    ((sumSks rows : ℤ) : ℚ) = (rows.map (fun r => (r.sks : ℚ))).sum := by
  unfold sumSks
  induction rows with
  | nil => simp
  | cons r rows ih =>
    simp only [List.map_cons, List.sum_cons] at *
    push_cast at *
    linarith

/-- Claim C8: under the data-model invariants — every joined weight lies in
`[0, maxW]` where the maximal weight `maxW = k/100` has at most two decimal
places, and credit weights are nonnegative — every GPA the loop can produce
lies in `[0, maxW]` and is an exact multiple of `1/100` (two decimal
places). -/
theorem c8_gpa_range (rows : List IpsRow) (k : ℤ) (hk : 0 ≤ k)
    (hb : ∀ r ∈ rows, 0 ≤ r.bobot ∧ r.bobot ≤ (k : ℚ) / 100)
    (hs : ∀ r ∈ rows, 0 ≤ r.sks) :
    0 ≤ computeIps (processRows rows).total_points (processRows rows).total_sks ∧
    computeIps (processRows rows).total_points (processRows rows).total_sks
      ≤ (k : ℚ) / 100 ∧
    ∃ j : ℤ, computeIps (processRows rows).total_points (processRows rows).total_sks
      = (j : ℚ) / 100 := by
  rw [processRows_eq]
  dsimp only
  by_cases hS : (0 : ℤ) < sumSks rows
  · have hSq : (0 : ℚ) < ((sumSks rows : ℤ) : ℚ) := by exact_mod_cast hS
    have hP0 : 0 ≤ sumPoints rows := by
      unfold sumPoints
      apply List.sum_nonneg
      intro a ha
      rw [List.mem_map] at ha
      obtain ⟨r, hr, rfl⟩ := ha
      exact mul_nonneg (by exact_mod_cast hs r hr) (hb r hr).1
    have hPle : sumPoints rows ≤ ((k : ℚ) / 100) * ((sumSks rows : ℤ) : ℚ) := by
      unfold sumPoints
      have h1 : (rows.map fun r => (r.sks : ℚ) * r.bobot).sum
          ≤ (rows.map fun r => (r.sks : ℚ) * ((k : ℚ) / 100)).sum := by
        apply List.sum_le_sum
        intro r hr
        exact mul_le_mul_of_nonneg_left (hb r hr).2 (by exact_mod_cast hs r hr)
      have h2 : (rows.map fun r => (r.sks : ℚ) * ((k : ℚ) / 100)).sum
          = (rows.map fun r => (r.sks : ℚ)).sum * ((k : ℚ) / 100) :=
        List.sum_map_mul_right rows (fun r => (r.sks : ℚ)) ((k : ℚ) / 100)
      rw [h2, ← sumSks_cast rows] at h1
      linarith
    have hge : (0 : ℚ) ≤ sumPoints rows / ((sumSks rows : ℤ) : ℚ) :=
      div_nonneg hP0 (le_of_lt hSq)
    have hle : sumPoints rows / ((sumSks rows : ℤ) : ℚ) ≤ (k : ℚ) / 100 := by
      rw [div_le_iff₀ hSq]
      linarith
    simp only [computeIps, if_pos hS]
    refine ⟨?_, ?_, ?_⟩
    · calc (0 : ℚ) = round2 0 := round2_zero.symm
        _ ≤ round2 (sumPoints rows / ((sumSks rows : ℤ) : ℚ)) := round2_mono hge
    · calc round2 (sumPoints rows / ((sumSks rows : ℤ) : ℚ))
          ≤ round2 ((k : ℚ) / 100) := round2_mono hle
        _ = (k : ℚ) / 100 := round2_intdiv k
    · exact ⟨round ((sumPoints rows / ((sumSks rows : ℤ) : ℚ)) * 100), rfl⟩
  · simp only [computeIps, if_neg hS]
    exact ⟨le_refl 0, div_nonneg (by exact_mod_cast hk) (by norm_num), 0, by norm_num⟩

/-- Witness for C8: on the scenario rows with weights in `[0, 4.00]`
(`k = 400`), the GPA is within `[0, 4]` and has two decimal places. -/
theorem c8_gpa_range_witness :
    0 ≤ computeIps (processRows sampleRows).total_points
          (processRows sampleRows).total_sks ∧
    computeIps (processRows sampleRows).total_points (processRows sampleRows).total_sks
      ≤ ((400 : ℤ) : ℚ) / 100 ∧
    ∃ j : ℤ, computeIps (processRows sampleRows).total_points
        (processRows sampleRows).total_sks = (j : ℚ) / 100 :=
  c8_gpa_range sampleRows 400 (by norm_num)
    (by intro r hr
        simp only [sampleRows, List.mem_cons, List.not_mem_nil, or_false] at hr
        rcases hr with rfl | rfl <;> norm_num)
    (by intro r hr
        simp only [sampleRows, List.mem_cons, List.not_mem_nil, or_false] at hr
        rcases hr with rfl | rfl <;> norm_num)

end Acad
